import Mathlib

/-!
Verification of the stream-resolution engine and catalog adapter of the
`ncloud_music` provider (`src/ncloud_music/__init__.py`).

The embedding models:
- the quality ladder and probe-sequence computation (`get_stream_details`,
  lines 773-786);
- the sequential probe loop over quality levels (lines 788-819);
- the rescue ("unblock") path and its metadata merge (lines 821-856);
- the final format classification and `StreamDetails` assembly (lines 858-897);
- the catalog adapter `_parse_track` (lines 493-543).

JSON dictionaries are modelled as records with `Option` fields (a `none` field
stands for an absent key).  Python truthiness of strings ("" is falsy) is made
explicit via `strTruthy`.  The upstream HTTP layer `_api_request` never raises
(it catches every exception and returns a `code = -1` payload), so a probe is
modelled as a total function from quality level to response.  Raising
`ValueError` ("NoPlayableSource") is modelled as the resolver returning `none`
for its stream.  Instrumentation fields (`queried`, `rescue_calls`, ...) record
the trace of the run without altering its behaviour.
-/

namespace NCloudMusic

/-- Python truthiness of an optional string: `None` and `""` are falsy. -/
def strTruthy : Option String → Bool
  | some s => !s.isEmpty
  | none => false

/-- Python `str.lower()` on the character data (ASCII case folding, which is
exact on the container tags the classifier compares against). -/
def py_lower (s : String) : String := String.mk (s.data.map Char.toLower)

/-- One element of the `data` list of `/song/url/v1`, and also the merged
dictionary built by the rescue path.  `freeTrialInfo` records the truthiness of
the `freeTrialInfo` key; `ftype` is the `type` key (container tag). -/
structure SongData where
  url : Option String := none
  freeTrialInfo : Bool := false
  br : Option Nat := none
  ftype : Option String := none
  sr : Option Nat := none
  size : Option Nat := none
  md5 : Option String := none
  time : Option Nat := none
deriving Repr, DecidableEq

/-- Response of one `/song/url/v1` probe: status code plus the `data` list
(absent key modelled as `[]`). -/
structure ProbeResponse where
  code : Int := -1
  data : List SongData := []
deriving Repr, DecidableEq

/-- The `data` object of a `/song/url/match` (rescue) response. -/
structure MatchData where
  url : Option String := none
  br : Option Nat := none
  ftype : Option String := none
  size : Option Nat := none
  md5 : Option String := none
deriving Repr, DecidableEq

/-- Response of the rescue endpoint `/song/url/match`. -/
structure UnblockResponse where
  code : Int := -1
  data : Option MatchData := none
deriving Repr, DecidableEq

/-- The upstream world one resolution run sees: a response per probed quality
level, and the rescue response. -/
structure ResolveEnv where
  probe : String → ProbeResponse
  unblock : UnblockResponse

/-- The fixed quality ladder, highest to lowest (source line 775). -/
def all_levels : List String :=
  ["jymaster", "dolby", "sky", "jyeffect",
   "hires", "lossless", "exhigh", "higher", "standard"]

/-- Index of the first occurrence of `q`, mirroring Python `list.index`
(`none` mirrors the raised `ValueError`). -/
def idx_of (q : String) : List String → Option Nat
  | [] => none
  | x :: xs => if x = q then some 0 else (idx_of q xs).map (· + 1)

/-- The probe sequence (source lines 779-784): the suffix of the ladder from
the configured quality, or the default sub-sequence on an unrecognized
value. -/
def compute_levels (quality_config : String) : List String :=
  match idx_of quality_config all_levels with
  | some start_index => all_levels.drop start_index
  | none => ["exhigh", "higher", "standard"]

/-- State threaded through the probe loop (source lines 788-790), plus the
`queried` / `accepted` instrumentation recording the trace. -/
structure LoopState where
  song_data : Option SongData := none
  url : Option String := none
  is_free_trial : Bool := false
  queried : List String := []
  accepted : Bool := false
deriving Repr, DecidableEq

/-- Outcome of one loop iteration: `stop` models the `break` on a full
candidate, `next` models falling through to the next level (`continue` or
no-candidate). -/
inductive StepOut
  | stop (st : LoopState)
  | next (st : LoopState)
deriving Repr, DecidableEq

/-- The state carried by a `StepOut`. -/
def StepOut.state : StepOut → LoopState
  | .stop st => st
  | .next st => st

/-- One iteration of the probe loop body (source lines 798-819), given the
response at the current level.  A free-trial candidate is retained only if
nothing was retained yet and probing continues; a candidate with a truthy URL
and no free-trial flag is accepted and the loop stops.  Python's `if not
song_data` truthiness test is `isNone` here: a retained dictionary always
holds a truthy `freeTrialInfo` key (preview branch) or a truthy `url` key
(accept branch, which exits the loop), so it is never the falsy empty dict. -/
def probe_step (resp : ProbeResponse) (st : LoopState) : StepOut :=
  if resp.code = 200 then
    match resp.data with
    | [] => .next st
    | temp_data :: _ =>
      if temp_data.freeTrialInfo then
        let st2 := { st with is_free_trial := true }
        .next (if st2.song_data.isNone then
                 { st2 with song_data := some temp_data, url := temp_data.url }
               else st2)
      else if strTruthy temp_data.url then
        .stop { st with song_data := some temp_data, url := temp_data.url,
                        is_free_trial := false, accepted := true }
      else .next st
  else .next st

/-- The probe loop (source lines 792-819): issue one lookup per level in
order, apply the loop body, stop on `break`. -/
def probe_loop (probe : String → ProbeResponse) : List String → LoopState → LoopState
  | [], st => st
  | level :: rest, st =>
    let st1 := { st with queried := st.queried ++ [level] }
    match probe_step (probe level) st1 with
    | .stop st2 => st2
    | .next st2 => probe_loop probe rest st2

/-- The fixed ordered rescue source list (source line 828). -/
def rescue_source : String := "pyncmd,bodian,kuwo"

/-- The rescue branch body (source lines 831-852): on a successful response
with a truthy URL, build the merged song dictionary — rescue fields override,
missing ones are backfilled from the retained candidate, and hard defaults
apply only when both are absent — and clear the free-trial flag. -/
def apply_unblock (resp : UnblockResponse) (song_data : Option SongData)
    (url : Option String) (is_free_trial : Bool) :
    Option SongData × Option String × Bool :=
  if resp.code = 200 then
    match resp.data with
    | none => (song_data, url, is_free_trial)
    | some match_data =>
      if strTruthy match_data.url then
        let base := song_data.getD {}
        let merged : SongData :=
          { base with
            url := match_data.url
            br := some (match_data.br.getD (base.br.getD 128000))
            ftype := some (match_data.ftype.getD (base.ftype.getD "mp3"))
            size := some (match_data.size.getD (base.size.getD 0))
            md5 := some (match_data.md5.getD (base.md5.getD "")) }
        (some merged, match_data.url, false)
      else (song_data, url, is_free_trial)
  else (song_data, url, is_free_trial)

/-- Codec enum (the subset of `ContentType` the classifier can produce). -/
inductive ContentType
  | UNKNOWN
  | MP3
  | FLAC
  | AAC
deriving Repr, DecidableEq

/-- Audio-format metadata of the final stream (`bit_rate` in kbps). -/
structure AudioFormat where
  content_type : ContentType
  sample_rate : Nat
  bit_depth : Nat
  bit_rate : Option Nat
deriving Repr, DecidableEq

/-- The externally visible resolved stream. -/
structure StreamDetails where
  item_id : String
  audio_format : AudioFormat
  path : String
  duration : Option Nat
deriving Repr, DecidableEq

/-- Pure format classification (source lines 866-889): container tag to codec,
with the 16 → 24 bit-depth upgrade on `flac` exactly when the bit rate exceeds
1,000,000 bps; reported bit rate is bps divided by 1000, or `none` when 0. -/
def classify_format (song_data : SongData) : AudioFormat :=
  let file_type := py_lower (song_data.ftype.getD "")
  let bit_rate := song_data.br.getD 0
  let ct_bd : ContentType × Nat :=
    if file_type = "mp3" then (ContentType.MP3, 16)
    else if file_type = "flac" then
      (ContentType.FLAC, if bit_rate > 1000000 then 24 else 16)
    else if file_type = "m4a" then (ContentType.AAC, 16)
    else (ContentType.UNKNOWN, 16)
  { content_type := ct_bd.1
    sample_rate := song_data.sr.getD 44100
    bit_depth := ct_bd.2
    bit_rate := if bit_rate = 0 then none else some (bit_rate / 1000) }

/-- Duration derivation (source line 896): `time // 1000` when `time` is
truthy, else `none`. -/
def resolve_duration (song_data : SongData) : Option Nat :=
  match song_data.time with
  | none => none
  | some t => if t = 0 then none else some (t / 1000)

/-- Whether the rescue response carries a truthy URL (code 200, non-empty
`data`, truthy `url`). -/
def unblock_url_ok (resp : UnblockResponse) : Bool :=
  if resp.code = 200 then
    match resp.data with
    | none => false
    | some match_data => strTruthy match_data.url
  else false

/-- Outcome of one full resolution run.  `stream = none` models the raised
"no playable URL" `ValueError` (NoPlayableSource).  The `probe_*` fields are
the loop state before the rescue branch; `final_*` the state after it;
`queried`, `rescue_calls` and `rescue_source_used` record the trace. -/
structure ResolveResult where
  stream : Option StreamDetails
  levels : List String
  queried : List String
  accepted : Bool
  probe_song_data : Option SongData
  probe_url : Option String
  probe_is_free_trial : Bool
  rescue_calls : Nat
  rescue_source_used : Option String
  final_song_data : Option SongData
  final_url : Option String
  final_is_free_trial : Bool
deriving Repr

/-- The rescue branch guard and call (source lines 821-856): the rescue path
is consulted exactly when the loop retained no truthy URL or only a free-trial
candidate.  The last two components record the number of rescue calls and the
`source` argument passed. -/
def rescue_phase (unblock : UnblockResponse) (st : LoopState) :
    Option SongData × Option String × Bool × Nat × Option String :=
  if !strTruthy st.url || st.is_free_trial then
    let r := apply_unblock unblock st.song_data st.url st.is_free_trial
    (r.1, r.2.1, r.2.2, 1, some rescue_source)
  else (st.song_data, st.url, st.is_free_trial, 0, none)

/-- The final check and assembly (source lines 858-897): an empty URL raises
(`none`); otherwise the stream is built from the merged song dictionary. -/
def build_stream (item_id : String) (song_data : Option SongData)
    (url : Option String) : Option StreamDetails :=
  if strTruthy url then
    let song := song_data.getD {}
    some { item_id := item_id
           audio_format := classify_format song
           path := url.getD ""
           duration := resolve_duration song }
  else none

/-- The stream resolver `get_stream_details` (source lines 764-897): compute
the probe sequence, run the probe loop, invoke the rescue path when no full
candidate was accepted, then fail on an empty URL or assemble the stream. -/
def get_stream_details (env : ResolveEnv) (item_id : String)
    (quality_config : String) : ResolveResult :=
  let levels := compute_levels quality_config
  let st := probe_loop env.probe levels {}
  let after := rescue_phase env.unblock st
  { stream := build_stream item_id after.1 after.2.1
    levels := levels
    queried := st.queried
    accepted := st.accepted
    probe_song_data := st.song_data
    probe_url := st.url
    probe_is_free_trial := st.is_free_trial
    rescue_calls := after.2.2.2.1
    rescue_source_used := after.2.2.2.2
    final_song_data := after.1
    final_url := after.2.1
    final_is_free_trial := after.2.2.1 }

/-- A probe response whose head candidate would be accepted as a full hit:
code 200, non-empty data, no free-trial flag, truthy URL. -/
def fullHit (resp : ProbeResponse) : Bool :=
  match resp.data with
  | [] => false
  | d :: _ => (resp.code = 200 : Bool) && !d.freeTrialInfo && strTruthy d.url

/-- A probe response whose head candidate carries the free-trial (preview)
flag, under a 200 code with non-empty data. -/
def previewHit (resp : ProbeResponse) : Bool :=
  match resp.data with
  | [] => false
  | d :: _ => (resp.code = 200 : Bool) && d.freeTrialInfo

/-! ## Catalog adapter (`_parse_track`, source lines 493-543) -/

/-- Media-entity kind used by cross-reference mappings. -/
inductive MediaType
  | TRACK
  | ALBUM
  | ARTIST
deriving Repr, DecidableEq

/-- One element of the upstream `ar` (artists) list; `ar["id"]` is a hard
`KeyError` when absent. -/
structure ArtistRef where
  id : Option Nat := none
  name : Option String := none
deriving Repr, DecidableEq

/-- The upstream `al` (album) object. -/
structure AlbumRef where
  id : Option Nat := none
  name : Option String := none
  picUrl : Option String := none
deriving Repr, DecidableEq

/-- The upstream song payload given to `_parse_track` (the fields it reads);
`id` is a hard `KeyError` when absent, everything else is optional.  An absent
or empty `al` dictionary is modelled as `none` (both are falsy). -/
structure TrackPayload where
  id : Option Nat := none
  name : Option String := none
  dt : Option Nat := none
  ar : List ArtistRef := []
  al : Option AlbumRef := none
deriving Repr, DecidableEq

/-- Lightweight external-entity pointer (`ItemMapping`). -/
structure ItemMapping where
  media_type : MediaType
  item_id : String
  provider : String
  name : String
deriving Repr, DecidableEq

/-- A cover image with its rewritten URL. -/
structure MediaItemImage where
  path : String
  provider : String
deriving Repr, DecidableEq

/-- The normalized track entity (the fields `_parse_track` populates). -/
structure Track where
  item_id : String
  provider : String
  name : String
  duration : Nat
  artists : List ItemMapping
  album : Option ItemMapping
  images : List MediaItemImage
deriving Repr, DecidableEq

/-- Parse the `ar` list (source lines 514-522); a missing `ar["id"]` raises. -/
def parse_artists (instance_id : String) : List ArtistRef → Except String (List ItemMapping)
  | [] => .ok []
  | a :: rest =>
    match a.id with
    | none => .error "KeyError: id"
    | some i => do
      let tail ← parse_artists instance_id rest
      .ok ({ media_type := MediaType.ARTIST, item_id := toString i,
             provider := instance_id, name := a.name.getD "未知艺术家" } :: tail)

/-- The album block of `_parse_track` (source lines 524-541): album pointer
plus the cover image with the fixed size-hint query suffix. -/
def parse_album_part (instance_id : String) (al : Option AlbumRef) :
    Option ItemMapping × List MediaItemImage :=
  match al with
  | none => (none, [])
  | some al =>
    (some { media_type := MediaType.ALBUM, item_id := toString (al.id.getD 0),
            provider := instance_id, name := al.name.getD "未知专辑" },
     if strTruthy al.picUrl then
       [{ path := (al.picUrl.getD "") ++ "?param=300y300", provider := instance_id }]
     else [])

/-- The catalog adapter `_parse_track` (source lines 493-543): a missing `id`
raises (modelled as `.error`); a missing `name` degrades to the placeholder
name. -/
def parse_track (instance_id : String) (data : TrackPayload) : Except String Track :=
  match data.id with
  | none => .error "KeyError: id"
  | some i => do
    let track_id := toString i
    let artists ← parse_artists instance_id data.ar
    .ok { item_id := track_id
          provider := instance_id
          name := data.name.getD "未知歌曲"
          duration := data.dt.getD 0 / 1000
          artists := artists
          album := (parse_album_part instance_id data.al).1
          images := (parse_album_part instance_id data.al).2 }

/-! ## Concrete environments used as evaluation witnesses -/

/-- A failed probe (what `_api_request` returns after catching an exception). -/
def resp_fail : ProbeResponse := {}

/-- A probe returning a full (non-preview) candidate with a URL. -/
def resp_full : ProbeResponse :=
  { code := 200, data := [{ url := some "http://full", br := some 320000,
                            ftype := some "mp3", sr := some 44100 }] }

/-- A probe returning a free-trial (preview) candidate. -/
def resp_preview : ProbeResponse :=
  { code := 200, data := [{ url := some "http://preview", freeTrialInfo := true,
                            br := some 320000, ftype := some "mp3",
                            time := some 30000 }] }

/-- World where the first probed level already yields a full candidate. -/
def env_full_first : ResolveEnv :=
  { probe := fun level => if level = "exhigh" then resp_full else resp_fail
    unblock := {} }

/-- World where the first probed level yields only a preview and the rescue
path succeeds. -/
def env_preview_only : ResolveEnv :=
  { probe := fun level => if level = "exhigh" then resp_preview else resp_fail
    unblock := { code := 200, data := some { url := some "http://unblock", br := some 999000 } } }

/-- World where every probe fails and the rescue path returns a bare URL. -/
def env_empty : ResolveEnv :=
  { probe := fun _ => resp_fail
    unblock := { code := 200, data := some { url := some "http://unblock" } } }

/-- World where every probe and the rescue path fail. -/
def env_dead : ResolveEnv :=
  { probe := fun _ => resp_fail
    unblock := {} }

/-- A track payload with an identifier but no name field. -/
def payload_no_name : TrackPayload := { id := some 42 }

/-- A track payload with a name but no identifier field. -/
def payload_no_id : TrackPayload := { name := some "x" }

/-! ## Helper lemmas: one iteration of the probe loop -/

theorem probe_step_stop_cases (resp : ProbeResponse) (st s : LoopState)
    (h : probe_step resp st = .stop s) :
    ∃ d tail, resp.data = d :: tail ∧ resp.code = 200 ∧
      d.freeTrialInfo = false ∧ strTruthy d.url = true ∧ fullHit resp = true ∧
      s = { st with song_data := some d, url := d.url,
                    is_free_trial := false, accepted := true } := by
  rcases resp with ⟨code, data⟩
  by_cases h200 : code = 200
  · rcases data with _ | ⟨d, tail⟩
    · simp [probe_step, h200] at h
    · by_cases hft : d.freeTrialInfo
      · simp [probe_step, h200, hft] at h
      · by_cases hurl : strTruthy d.url
        · refine ⟨d, tail, rfl, h200, by simpa using hft, hurl, ?_, ?_⟩
          · simp [fullHit, h200, hft, hurl]
          · simp [probe_step, h200, hft, hurl] at h
            exact h.symm
        · simp [probe_step, h200, hft, hurl] at h
  · simp [probe_step, h200] at h

theorem probe_step_full (resp : ProbeResponse) (st : LoopState)
    (h : fullHit resp = true) :
    ∃ d tail, resp.data = d :: tail ∧
      probe_step resp st =
        .stop { st with song_data := some d, url := d.url,
                        is_free_trial := false, accepted := true } := by
  rcases resp with ⟨code, data⟩
  rcases data with _ | ⟨d, tail⟩
  · simp [fullHit] at h
  · simp only [fullHit, Bool.and_eq_true, decide_eq_true_eq, Bool.not_eq_true'] at h
    obtain ⟨⟨h200, hft⟩, hurl⟩ := h
    exact ⟨d, tail, rfl, by simp [probe_step, h200, hft, hurl]⟩

theorem probe_step_quiet (resp : ProbeResponse) (st : LoopState)
    (hf : fullHit resp = false) (hp : previewHit resp = false) :
    probe_step resp st = .next st := by
  rcases resp with ⟨code, data⟩
  by_cases h200 : code = 200
  · rcases data with _ | ⟨d, tail⟩
    · simp [probe_step, h200]
    · by_cases hft : d.freeTrialInfo
      · exfalso
        simp [previewHit, h200, hft] at hp
      · by_cases hurl : strTruthy d.url
        · exfalso
          simp [fullHit, h200, hft, hurl] at hf
        · simp [probe_step, h200, hft, hurl]
  · simp [probe_step, h200]

theorem probe_step_preview_none (resp : ProbeResponse) (st : LoopState)
    (hp : previewHit resp = true) (hsd : st.song_data = none) :
    ∃ d tail, resp.data = d :: tail ∧
      probe_step resp st =
        .next { st with song_data := some d, url := d.url, is_free_trial := true } := by
  rcases resp with ⟨code, data⟩
  rcases data with _ | ⟨d, tail⟩
  · simp [previewHit] at hp
  · simp only [previewHit, Bool.and_eq_true, decide_eq_true_eq] at hp
    obtain ⟨h200, hft⟩ := hp
    exact ⟨d, tail, rfl, by simp [probe_step, h200, hft, hsd]⟩

theorem probe_step_preview_some (resp : ProbeResponse) (st : LoopState) (x : SongData)
    (hp : previewHit resp = true) (hsd : st.song_data = some x) :
    probe_step resp st = .next { st with is_free_trial := true } := by
  rcases resp with ⟨code, data⟩
  rcases data with _ | ⟨d, tail⟩
  · simp [previewHit] at hp
  · simp only [previewHit, Bool.and_eq_true, decide_eq_true_eq] at hp
    obtain ⟨h200, hft⟩ := hp
    simp [probe_step, h200, hft, hsd]

theorem probe_step_next_cases (resp : ProbeResponse) (st s : LoopState)
    (h : probe_step resp st = .next s) :
    s = st ∨
    (∃ d, s = { st with song_data := some d, url := d.url, is_free_trial := true }) ∨
    s = { st with is_free_trial := true } := by
  rcases resp with ⟨code, data⟩
  by_cases h200 : code = 200
  · rcases data with _ | ⟨d, tail⟩
    · simp [probe_step, h200] at h
      exact Or.inl h.symm
    · by_cases hft : d.freeTrialInfo
      · by_cases hsd : st.song_data.isNone
        · simp [probe_step, h200, hft, hsd] at h
          exact Or.inr (Or.inl ⟨d, h.symm⟩)
        · simp [probe_step, h200, hft, hsd] at h
          exact Or.inr (Or.inr h.symm)
      · by_cases hurl : strTruthy d.url
        · simp [probe_step, h200, hft, hurl] at h
        · simp [probe_step, h200, hft, hurl] at h
          exact Or.inl h.symm
  · simp [probe_step, h200] at h
    exact Or.inl h.symm

theorem probe_step_empty_data (resp : ProbeResponse) (st : LoopState)
    (h : resp.data = []) : probe_step resp st = .next st := by
  rcases resp with ⟨code, data⟩
  subst h
  by_cases h200 : code = 200 <;> simp [probe_step, h200]

theorem fullHit_elim (resp : ProbeResponse) (d : SongData) (tail : List SongData)
    (hdata : resp.data = d :: tail) (h : fullHit resp = true) :
    resp.code = 200 ∧ d.freeTrialInfo = false ∧ strTruthy d.url = true := by
  rcases resp with ⟨code, data⟩
  simp only at hdata
  subst hdata
  simp only [fullHit, Bool.and_eq_true, decide_eq_true_eq, Bool.not_eq_true'] at h
  exact ⟨h.1.1, h.1.2, h.2⟩

/-! ## Helper lemmas: the probe loop -/

theorem probe_loop_queried (probe : String → ProbeResponse) :
    ∀ (ls : List String) (st : LoopState),
    ∃ n, n ≤ ls.length ∧
      (probe_loop probe ls st).queried = st.queried ++ ls.take n := by
  intro ls
  induction ls with
  | nil =>
    intro st
    exact ⟨0, Nat.zero_le _, by simp [probe_loop]⟩
  | cons level rest ih =>
    intro st
    simp only [probe_loop]
    cases hstep : probe_step (probe level) { st with queried := st.queried ++ [level] } with
    | stop s =>
      obtain ⟨d, tail, hdata, h200, hft, hurl, hfull, hs⟩ :=
        probe_step_stop_cases _ _ _ hstep
      refine ⟨1, by simp, ?_⟩
      rw [hs]
      simp
    | next s =>
      obtain ⟨n, hn, hq⟩ := ih s
      have hsq : s.queried = st.queried ++ [level] := by
        rcases probe_step_next_cases _ _ _ hstep with h | ⟨d, h⟩ | h <;> simp [h]
      refine ⟨n + 1, by simpa using hn, ?_⟩
      rw [hq, hsq]
      simp [List.take_succ_cons]

theorem probe_loop_accepted_iff (probe : String → ProbeResponse) :
    ∀ (ls : List String) (st : LoopState),
    st.accepted = false →
    (strTruthy st.url = true → st.is_free_trial = true) →
    (probe_loop probe ls st).accepted =
      (strTruthy (probe_loop probe ls st).url &&
        !(probe_loop probe ls st).is_free_trial) := by
  intro ls
  induction ls with
  | nil =>
    intro st hacc hinv
    simp only [probe_loop]
    rw [hacc]
    cases hu : strTruthy st.url
    · simp
    · simp [hinv hu]
  | cons level rest ih =>
    intro st hacc hinv
    simp only [probe_loop]
    cases hstep : probe_step (probe level) { st with queried := st.queried ++ [level] } with
    | stop s =>
      obtain ⟨d, tail, hdata, h200, hft, hurl, hfull, hs⟩ :=
        probe_step_stop_cases _ _ _ hstep
      subst hs
      simp [hurl]
    | next s =>
      apply ih
      · rcases probe_step_next_cases _ _ _ hstep with h | ⟨d, h⟩ | h <;> simp [h, hacc]
      · rcases probe_step_next_cases _ _ _ hstep with h | ⟨d, h⟩ | h
        · subst h
          intro hu
          simpa using hinv (by simpa using hu)
        · subst h
          intro _
          rfl
        · subst h
          intro _
          rfl

theorem probe_loop_first_full (probe : String → ProbeResponse) :
    ∀ (ls : List String) (i : Nat) (st : LoopState) (hi : i < ls.length),
    fullHit (probe (ls.get ⟨i, hi⟩)) = true →
    (∀ j (hj : j < i), fullHit (probe (ls.get ⟨j, hj.trans hi⟩)) = false) →
    ∃ d tail, (probe (ls.get ⟨i, hi⟩)).data = d :: tail ∧
      probe_loop probe ls st =
        ⟨some d, d.url, false, st.queried ++ ls.take (i + 1), true⟩ := by
  intro ls
  induction ls with
  | nil =>
    intro i st hi
    exact absurd hi (by simp)
  | cons level rest ih =>
    intro i st hi hhit hmin
    cases i with
    | zero =>
      simp only [List.get] at hhit
      obtain ⟨d, tail, hdata, hstep⟩ :=
        probe_step_full (probe level) { st with queried := st.queried ++ [level] } hhit
      refine ⟨d, tail, by simpa using hdata, ?_⟩
      simp only [probe_loop]
      rw [hstep]
      simp
    | succ j =>
      have hfl : fullHit (probe level) = false := by
        simpa using hmin 0 (Nat.succ_pos j)
      simp only [probe_loop]
      cases hstep : probe_step (probe level) { st with queried := st.queried ++ [level] } with
      | stop s =>
        obtain ⟨d, tail, hdata, h200, hft, hurl, hfull, hs⟩ :=
          probe_step_stop_cases _ _ _ hstep
        rw [hfull] at hfl
        cases hfl
      | next s =>
        have hsq : s.queried = st.queried ++ [level] := by
          rcases probe_step_next_cases _ _ _ hstep with h | ⟨d, h⟩ | h <;> simp [h]
        have hi' : j < rest.length := by simpa using hi
        have hhit' : fullHit (probe (rest.get ⟨j, hi'⟩)) = true := by simpa using hhit
        have hmin' : ∀ k (hk : k < j), fullHit (probe (rest.get ⟨k, hk.trans hi'⟩)) = false := by
          intro k hk
          simpa using hmin (k + 1) (Nat.succ_lt_succ hk)
        obtain ⟨d, tail, hdata, hloop⟩ := ih j s hi' hhit' hmin'
        refine ⟨d, tail, by simpa using hdata, ?_⟩
        dsimp only
        rw [hloop, hsq]
        simp [List.take_succ_cons]

theorem probe_loop_no_full_preserve (probe : String → ProbeResponse) :
    ∀ (ls : List String) (st : LoopState) (x : SongData),
    (∀ l ∈ ls, fullHit (probe l) = false) →
    st.song_data = some x → st.is_free_trial = true →
    probe_loop probe ls st = { st with queried := st.queried ++ ls } := by
  intro ls
  induction ls with
  | nil =>
    intro st x hall hsd hft
    simp [probe_loop]
  | cons level rest ih =>
    rintro ⟨sd, u, ft, q, acc⟩ x hall hsd hft
    simp only at hsd hft
    subst hsd
    subst hft
    have hfl : fullHit (probe level) = false := hall level (by simp)
    simp only [probe_loop]
    by_cases hp : previewHit (probe level) = true
    · rw [probe_step_preview_some (probe level) _ x hp rfl]
      dsimp only
      rw [ih _ x (fun l hl => hall l (by simp [hl])) rfl rfl]
      simp
    · rw [probe_step_quiet (probe level) _ hfl (by simpa using hp)]
      dsimp only
      rw [ih _ x (fun l hl => hall l (by simp [hl])) rfl rfl]
      simp

theorem probe_loop_first_preview (probe : String → ProbeResponse) :
    ∀ (ls : List String) (i : Nat) (st : LoopState) (hi : i < ls.length),
    (∀ l ∈ ls, fullHit (probe l) = false) →
    previewHit (probe (ls.get ⟨i, hi⟩)) = true →
    (∀ j (hj : j < i), previewHit (probe (ls.get ⟨j, hj.trans hi⟩)) = false) →
    st.song_data = none →
    ∃ d tail, (probe (ls.get ⟨i, hi⟩)).data = d :: tail ∧
      probe_loop probe ls st =
        ⟨some d, d.url, true, st.queried ++ ls, st.accepted⟩ := by
  intro ls
  induction ls with
  | nil =>
    intro i st hi
    exact absurd hi (by simp)
  | cons level rest ih =>
    intro i st hi hall hprev hmin hsd
    cases i with
    | zero =>
      simp only [List.get] at hprev
      obtain ⟨d, tail, hdata, hstep⟩ := probe_step_preview_none (probe level)
        { st with queried := st.queried ++ [level] } hprev (by simpa using hsd)
      refine ⟨d, tail, by simpa using hdata, ?_⟩
      simp only [probe_loop]
      rw [hstep]
      dsimp only
      rw [probe_loop_no_full_preserve probe rest _ d (fun l hl => hall l (by simp [hl])) rfl rfl]
      simp
    | succ j =>
      have hfl : fullHit (probe level) = false := hall level (by simp)
      have hpl : previewHit (probe level) = false := by simpa using hmin 0 (Nat.succ_pos j)
      simp only [probe_loop]
      rw [probe_step_quiet (probe level) _ hfl hpl]
      dsimp only
      have hi' : j < rest.length := by simpa using hi
      obtain ⟨d, tail, hdata, hloop⟩ := ih j { st with queried := st.queried ++ [level] } hi'
        (fun l hl => hall l (by simp [hl]))
        (by simpa using hprev)
        (fun k hk => by simpa using hmin (k + 1) (Nat.succ_lt_succ hk))
        (by simpa using hsd)
      refine ⟨d, tail, by simpa using hdata, ?_⟩
      rw [hloop]
      simp

theorem probe_loop_all_empty (probe : String → ProbeResponse) :
    ∀ (ls : List String) (st : LoopState),
    (∀ l ∈ ls, (probe l).data = []) →
    probe_loop probe ls st = { st with queried := st.queried ++ ls } := by
  intro ls
  induction ls with
  | nil =>
    intro st h
    simp [probe_loop]
  | cons level rest ih =>
    intro st h
    simp only [probe_loop]
    rw [probe_step_empty_data (probe level) _ (h level (by simp))]
    dsimp only
    rw [ih _ (fun l hl => h l (by simp [hl]))]
    simp

/-! ## Helper lemmas: probe-sequence computation -/

theorem idx_of_mem (q : String) :
    ∀ ls : List String, q ∈ ls →
    ∃ i, idx_of q ls = some i ∧ ∃ hi : i < ls.length, ls.get ⟨i, hi⟩ = q := by
  intro ls
  induction ls with
  | nil =>
    intro h
    simp at h
  | cons x xs ih =>
    intro h
    by_cases hx : x = q
    · exact ⟨0, by simp [idx_of, hx], by simp, by simpa using hx⟩
    · have hq : q ∈ xs := by
        rcases List.mem_cons.mp h with h' | h'
        · exact absurd h'.symm hx
        · exact h'
      obtain ⟨i, hidx, hi, hget⟩ := ih hq
      exact ⟨i + 1, by simp [idx_of, hx, hidx], by simpa using hi, by simpa using hget⟩

theorem idx_of_not_mem (q : String) :
    ∀ ls : List String, q ∉ ls → idx_of q ls = none := by
  intro ls
  induction ls with
  | nil =>
    intro _
    rfl
  | cons x xs ih =>
    intro h
    have hx : x ≠ q := fun he => h (List.mem_cons.mpr (Or.inl he.symm))
    have hq : q ∉ xs := fun hm => h (List.mem_cons_of_mem _ hm)
    simp [idx_of, hx, ih hq]

theorem compute_levels_of_mem (q : String) (h : q ∈ all_levels) :
    ∃ i, ∃ hi : i < all_levels.length,
      all_levels.get ⟨i, hi⟩ = q ∧ compute_levels q = all_levels.drop i := by
  obtain ⟨i, hidx, hi, hget⟩ := idx_of_mem q all_levels h
  exact ⟨i, hi, hget, by simp [compute_levels, hidx]⟩

theorem compute_levels_of_not_mem (q : String) (h : q ∉ all_levels) :
    compute_levels q = ["exhigh", "higher", "standard"] := by
  simp [compute_levels, idx_of_not_mem q all_levels h]

theorem all_levels_nodup : all_levels.Nodup := by decide

theorem compute_levels_nodup (q : String) : (compute_levels q).Nodup := by
  unfold compute_levels
  cases h : idx_of q all_levels with
  | none => decide
  | some i => exact List.Nodup.sublist (List.drop_sublist i all_levels) all_levels_nodup

/-! ## Helper lemmas: rescue phase and final assembly -/

theorem rescue_phase_not_invoked (unblock : UnblockResponse) (st : LoopState)
    (h : (!strTruthy st.url || st.is_free_trial) = false) :
    rescue_phase unblock st = (st.song_data, st.url, st.is_free_trial, 0, none) := by
  simp [rescue_phase, h]

theorem rescue_phase_invoked (unblock : UnblockResponse) (st : LoopState)
    (h : (!strTruthy st.url || st.is_free_trial) = true) :
    rescue_phase unblock st =
      ((apply_unblock unblock st.song_data st.url st.is_free_trial).1,
       (apply_unblock unblock st.song_data st.url st.is_free_trial).2.1,
       (apply_unblock unblock st.song_data st.url st.is_free_trial).2.2,
       1, some rescue_source) := by
  simp [rescue_phase, h]

theorem apply_unblock_success (m : MatchData) (song_data : Option SongData)
    (url : Option String) (ft : Bool) (hurl : strTruthy m.url = true) :
    apply_unblock ⟨200, some m⟩ song_data url ft =
      (some { song_data.getD {} with
              url := m.url
              br := some (m.br.getD ((song_data.getD {}).br.getD 128000))
              ftype := some (m.ftype.getD ((song_data.getD {}).ftype.getD "mp3"))
              size := some (m.size.getD ((song_data.getD {}).size.getD 0))
              md5 := some (m.md5.getD ((song_data.getD {}).md5.getD "")) },
       m.url, false) := by
  simp [apply_unblock, hurl]

theorem apply_unblock_noop (resp : UnblockResponse) (song_data : Option SongData)
    (url : Option String) (ft : Bool) (h : unblock_url_ok resp = false) :
    apply_unblock resp song_data url ft = (song_data, url, ft) := by
  rcases resp with ⟨code, data⟩
  by_cases h200 : code = 200
  · rcases data with _ | m
    · simp [apply_unblock, h200]
    · have hm : strTruthy m.url = false := by simpa [unblock_url_ok, h200] using h
      simp [apply_unblock, h200, hm]
  · simp [apply_unblock, h200]

theorem unblock_url_ok_elim (resp : UnblockResponse) (h : unblock_url_ok resp = true) :
    ∃ m, resp = ⟨200, some m⟩ ∧ strTruthy m.url = true := by
  rcases resp with ⟨code, data⟩
  by_cases h200 : code = 200
  · rcases data with _ | m
    · simp [unblock_url_ok, h200] at h
    · subst h200
      exact ⟨m, rfl, by simpa [unblock_url_ok] using h⟩
  · simp [unblock_url_ok, h200] at h

theorem build_stream_empty (item : String) (sd : Option SongData) (u : Option String)
    (h : strTruthy u = false) : build_stream item sd u = none := by
  simp [build_stream, h]

theorem build_stream_ok (item : String) (sd : Option SongData) (u : Option String)
    (h : strTruthy u = true) :
    build_stream item sd u = some
      { item_id := item
        audio_format := classify_format (sd.getD {})
        path := u.getD ""
        duration := resolve_duration (sd.getD {}) } := by
  simp [build_stream, h]

theorem strTruthy_getD_ne (u : Option String) (h : strTruthy u = true) : u.getD "" ≠ "" := by
  rcases u with _ | s
  · simp [strTruthy] at h
  · simp only [strTruthy, Bool.not_eq_true'] at h
    simp only [Option.getD_some]
    intro he
    rw [he] at h
    exact absurd h (by decide)

/-- The resolver record, spelled out phase by phase (definitional). -/
theorem gsd_eq (env : ResolveEnv) (item q : String) :
    get_stream_details env item q =
      { stream := build_stream item
          (rescue_phase env.unblock (probe_loop env.probe (compute_levels q) {})).1
          (rescue_phase env.unblock (probe_loop env.probe (compute_levels q) {})).2.1
        levels := compute_levels q
        queried := (probe_loop env.probe (compute_levels q) {}).queried
        accepted := (probe_loop env.probe (compute_levels q) {}).accepted
        probe_song_data := (probe_loop env.probe (compute_levels q) {}).song_data
        probe_url := (probe_loop env.probe (compute_levels q) {}).url
        probe_is_free_trial := (probe_loop env.probe (compute_levels q) {}).is_free_trial
        rescue_calls :=
          (rescue_phase env.unblock (probe_loop env.probe (compute_levels q) {})).2.2.2.1
        rescue_source_used :=
          (rescue_phase env.unblock (probe_loop env.probe (compute_levels q) {})).2.2.2.2
        final_song_data :=
          (rescue_phase env.unblock (probe_loop env.probe (compute_levels q) {})).1
        final_url :=
          (rescue_phase env.unblock (probe_loop env.probe (compute_levels q) {})).2.1
        final_is_free_trial :=
          (rescue_phase env.unblock (probe_loop env.probe (compute_levels q) {})).2.2.1 } := rfl

theorem build_stream_path_ne (item : String) (a : Option SongData) (u : Option String)
    (sd : StreamDetails) (h : build_stream item a u = some sd) : sd.path ≠ "" := by
  cases hu : strTruthy u
  · rw [build_stream_empty _ _ _ hu] at h
    cases h
  · rw [build_stream_ok _ _ _ hu] at h
    injection h with h
    subst h
    exact strTruthy_getD_ne u hu

theorem parse_artists_ok (instance_id : String) :
    ∀ ars : List ArtistRef, (∀ a ∈ ars, a.id.isSome) →
    ∃ ms, parse_artists instance_id ars = .ok ms := by
  intro ars
  induction ars with
  | nil =>
    intro _
    exact ⟨[], rfl⟩
  | cons a rest ih =>
    intro h
    obtain ⟨j, hj⟩ := Option.isSome_iff_exists.mp (h a (by simp))
    obtain ⟨ms, hms⟩ := ih (fun b hb => h b (by simp [hb]))
    refine ⟨{ media_type := MediaType.ARTIST, item_id := toString j,
              provider := instance_id, name := a.name.getD "未知艺术家" } :: ms, ?_⟩
    simp [parse_artists, hj, hms, Bind.bind, Except.bind]

/-! ## The claims -/

/-- Claim C1: in every resolution run, if a probed quality level returns a
candidate with a non-empty URL and no preview-clip flag (and no earlier level
did), that candidate is accepted immediately: the probed levels are exactly
the sequence up to and including the accepting level, each queried once, and
no later level (and no rescue call) is issued. -/
theorem C1_first_full_hit_accepted_immediately
    (env : ResolveEnv) (item_id quality_config : String) (i : Nat)
    (hi : i < (compute_levels quality_config).length)
    (hhit : fullHit (env.probe ((compute_levels quality_config).get ⟨i, hi⟩)) = true)
    (hmin : ∀ j (hj : j < i),
      fullHit (env.probe ((compute_levels quality_config).get ⟨j, hj.trans hi⟩)) = false) :
    (get_stream_details env item_id quality_config).queried =
        (compute_levels quality_config).take (i + 1) ∧
    (get_stream_details env item_id quality_config).queried.Nodup ∧
    (get_stream_details env item_id quality_config).accepted = true ∧
    (get_stream_details env item_id quality_config).rescue_calls = 0 := by
  obtain ⟨d, tail, hdata, hloop⟩ :=
    probe_loop_first_full env.probe (compute_levels quality_config) i {} hi hhit hmin
  obtain ⟨h200, hft, hurl⟩ := fullHit_elim _ d tail hdata hhit
  rw [gsd_eq, hloop, rescue_phase_not_invoked _ _ (by simp [hurl])]
  refine ⟨by simp, ?_, rfl, rfl⟩
  simp only
  refine List.Nodup.sublist ?_ (compute_levels_nodup quality_config)
  simpa using List.take_sublist (i + 1) (compute_levels quality_config)

/-- Claim C2: for every configured quality present in the fixed nine-entry
ladder, the probe sequence is exactly the contiguous ladder suffix starting at
that value (starts with it, in ladder order, no skips, no repeats), and every
run only queries an in-order prefix of that suffix — so no level ranked above
the starting point is ever probed. -/
theorem C2_recognized_quality_gives_ladder_suffix (q : String) (hq : q ∈ all_levels) :
    ∃ i, ∃ hi : i < all_levels.length,
      all_levels.get ⟨i, hi⟩ = q ∧
      compute_levels q = all_levels.drop i ∧
      (compute_levels q).head? = some q ∧
      (compute_levels q).Nodup ∧
      ∀ (env : ResolveEnv) (item_id : String), ∃ n,
        (get_stream_details env item_id q).queried = (compute_levels q).take n := by
  obtain ⟨i, hi, hget, hdrop⟩ := compute_levels_of_mem q hq
  refine ⟨i, hi, hget, hdrop, ?_, compute_levels_nodup q, ?_⟩
  · rw [hdrop, List.head?_drop]
    rw [List.getElem?_eq_getElem hi]
    simpa using hget
  · intro env item_id
    obtain ⟨n, _, hqd⟩ := probe_loop_queried env.probe (compute_levels q) {}
    refine ⟨n, ?_⟩
    rw [gsd_eq]
    simpa using hqd

/-- Claim C3: an unrecognized configured quality never aborts resolution: the
probe sequence falls back to the default sub-sequence exhigh → higher →
standard, and the run still produces either the defined failure (`none`) or a
stream with a non-empty URL. -/
theorem C3_unrecognized_quality_uses_default (q : String) (hq : q ∉ all_levels)
    (env : ResolveEnv) (item_id : String) :
    (get_stream_details env item_id q).levels = ["exhigh", "higher", "standard"] ∧
    ((get_stream_details env item_id q).stream = none ∨
      ∃ sd, (get_stream_details env item_id q).stream = some sd ∧ sd.path ≠ "") := by
  constructor
  · rw [gsd_eq]
    exact compute_levels_of_not_mem q hq
  · cases hs : (get_stream_details env item_id q).stream with
    | none => exact Or.inl rfl
    | some sd =>
      refine Or.inr ⟨sd, rfl, ?_⟩
      rw [gsd_eq] at hs
      exact build_stream_path_ne _ _ _ _ hs

/-- Claim C8: the pure format classifier maps container tag "flac" with bit
rate 1,200,000 to codec FLAC with bit depth 24, and "flac" with 600,000 to
FLAC with bit depth 16; for "flac" the 16 → 24 upgrade fires exactly when the
bit rate exceeds 1,000,000. -/
theorem C8_flac_bit_depth_threshold :
    (classify_format { ftype := some "flac", br := some 1200000 }).content_type =
        ContentType.FLAC ∧
    (classify_format { ftype := some "flac", br := some 1200000 }).bit_depth = 24 ∧
    (classify_format { ftype := some "flac", br := some 600000 }).content_type =
        ContentType.FLAC ∧
    (classify_format { ftype := some "flac", br := some 600000 }).bit_depth = 16 ∧
    ∀ br : Nat, (classify_format { ftype := some "flac", br := some br }).bit_depth =
      if br > 1000000 then 24 else 16 := by
  refine ⟨by decide, by decide, by decide, by decide, ?_⟩
  intro br
  have h1 : py_lower "flac" = "flac" := by decide
  simp only [classify_format, Option.getD_some, h1]
  simp

/-- Claim C4: a preview-clip candidate never stops probing: when no level
yields a full candidate, the run probes every level, retains the first
preview-clip candidate seen (discarding later ones at lower levels), keeps its
free-trial flag, and never marks the run accepted. -/
theorem C4_first_preview_retained_probing_continues
    (env : ResolveEnv) (item_id quality_config : String) (i : Nat)
    (hi : i < (compute_levels quality_config).length)
    (hall : ∀ l ∈ compute_levels quality_config, fullHit (env.probe l) = false)
    (hprev : previewHit (env.probe ((compute_levels quality_config).get ⟨i, hi⟩)) = true)
    (hmin : ∀ j (hj : j < i),
      previewHit (env.probe ((compute_levels quality_config).get ⟨j, hj.trans hi⟩)) = false) :
    ∃ d tail,
      (env.probe ((compute_levels quality_config).get ⟨i, hi⟩)).data = d :: tail ∧
      (get_stream_details env item_id quality_config).queried =
          compute_levels quality_config ∧
      (get_stream_details env item_id quality_config).probe_song_data = some d ∧
      (get_stream_details env item_id quality_config).probe_url = d.url ∧
      (get_stream_details env item_id quality_config).probe_is_free_trial = true ∧
      (get_stream_details env item_id quality_config).accepted = false := by
  obtain ⟨d, tail, hdata, hloop⟩ :=
    probe_loop_first_preview env.probe (compute_levels quality_config) i {} hi
      hall hprev hmin rfl
  refine ⟨d, tail, hdata, ?_, ?_, ?_, ?_, ?_⟩ <;> (rw [gsd_eq, hloop]; try simp)

/-- Claim C5: the rescue path is invoked exactly once, with the fixed source
list "pyncmd,bodian,kuwo", precisely when the probe loop did not accept a full
candidate (no truthy URL was retained, or only a free-trial candidate was);
when a full candidate was accepted, no rescue call is made. -/
theorem C5_rescue_iff_no_full_accept (env : ResolveEnv) (item_id quality_config : String) :
    ((get_stream_details env item_id quality_config).rescue_calls = 1 ↔
      (get_stream_details env item_id quality_config).accepted = false) ∧
    ((get_stream_details env item_id quality_config).accepted = false ↔
      (strTruthy (get_stream_details env item_id quality_config).probe_url = false ∨
        (get_stream_details env item_id quality_config).probe_is_free_trial = true)) ∧
    ((get_stream_details env item_id quality_config).rescue_calls = 1 →
      (get_stream_details env item_id quality_config).rescue_source_used =
        some "pyncmd,bodian,kuwo") ∧
    ((get_stream_details env item_id quality_config).accepted = true →
      (get_stream_details env item_id quality_config).rescue_calls = 0 ∧
      (get_stream_details env item_id quality_config).rescue_source_used = none) := by
  have hacc := probe_loop_accepted_iff env.probe (compute_levels quality_config) {}
    rfl (by simp [strTruthy])
  rw [gsd_eq]
  set st := probe_loop env.probe (compute_levels quality_config) {} with hst
  by_cases hneed : (!strTruthy st.url || st.is_free_trial) = true
  · have hcase : strTruthy st.url = false ∨ st.is_free_trial = true := by
      cases hu : strTruthy st.url
      · exact Or.inl rfl
      · cases hf : st.is_free_trial
        · rw [hu, hf] at hneed
          exact absurd hneed (by decide)
        · exact Or.inr rfl
    have hacc' : st.accepted = false := by
      rw [hacc]
      rcases hcase with h | h
      · rw [h]
        rfl
      · rw [h]
        simp
    rw [rescue_phase_invoked _ _ hneed]
    dsimp only
    refine ⟨by simp [hacc'], ⟨fun _ => hcase, fun _ => hacc'⟩, fun _ => rfl, ?_⟩
    intro h
    rw [hacc'] at h
    cases h
  · have hneed' : (!strTruthy st.url || st.is_free_trial) = false := by simpa using hneed
    have hurl : strTruthy st.url = true := by
      cases hu : strTruthy st.url
      · rw [hu] at hneed'
        simp at hneed'
      · rfl
    have hft : st.is_free_trial = false := by
      cases hf : st.is_free_trial
      · rfl
      · rw [hf] at hneed'
        simp at hneed'
    have hacc' : st.accepted = true := by
      rw [hacc, hurl, hft]
      rfl
    rw [rescue_phase_not_invoked _ _ hneed']
    dsimp only
    refine ⟨by simp [hacc'], by simp [hacc', hurl, hft], by simp, fun _ => ⟨rfl, rfl⟩⟩

/-- Claim C6: when the rescue path is invoked and returns a non-empty URL, the
free-trial flag is cleared and the rescue URL/container-tag/bit-rate/size/
checksum values override the retained preview candidate's, each missing rescue
field being backfilled from the retained candidate; the final stream carries
the rescue URL. -/
theorem C6_rescue_success_overrides_and_backfills
    (env : ResolveEnv) (item_id quality_config : String) (prev : SongData) (m : MatchData)
    (hub : env.unblock = ⟨200, some m⟩)
    (hurl : strTruthy m.url = true)
    (hresc : (get_stream_details env item_id quality_config).rescue_calls = 1)
    (hprev : (get_stream_details env item_id quality_config).probe_song_data = some prev) :
    (get_stream_details env item_id quality_config).final_is_free_trial = false ∧
    (get_stream_details env item_id quality_config).final_url = m.url ∧
    (get_stream_details env item_id quality_config).final_song_data = some
      { prev with url := m.url
                  br := some (m.br.getD (prev.br.getD 128000))
                  ftype := some (m.ftype.getD (prev.ftype.getD "mp3"))
                  size := some (m.size.getD (prev.size.getD 0))
                  md5 := some (m.md5.getD (prev.md5.getD "")) } ∧
    ∃ sd, (get_stream_details env item_id quality_config).stream = some sd ∧
      sd.path = m.url.getD "" := by
  rw [gsd_eq] at hresc hprev ⊢
  set st := probe_loop env.probe (compute_levels quality_config) {} with hst
  dsimp only at hresc hprev ⊢
  by_cases hneed : (!strTruthy st.url || st.is_free_trial) = true
  · rw [rescue_phase_invoked _ _ hneed]
    rw [hub, hprev, apply_unblock_success m (some prev) st.url st.is_free_trial hurl]
    dsimp only
    refine ⟨by simp, by simp, by simp, ?_⟩
    rw [build_stream_ok _ _ _ hurl]
    exact ⟨_, rfl, rfl⟩
  · rw [rescue_phase_not_invoked _ _ (by simpa using hneed)] at hresc
    exact absurd hresc (by simp)

/-- Claim C7: resolution fails (models raising NoPlayableSource, returning no
partial stream) exactly when neither the probe loop retained a truthy URL nor
the rescue response carries one; every successful result has a non-empty
URL. -/
theorem C7_failure_iff_no_url_anywhere (env : ResolveEnv) (item_id quality_config : String) :
    ((get_stream_details env item_id quality_config).stream = none ↔
      (strTruthy (get_stream_details env item_id quality_config).probe_url = false ∧
        unblock_url_ok env.unblock = false)) ∧
    (∀ sd, (get_stream_details env item_id quality_config).stream = some sd →
      sd.path ≠ "") := by
  rw [gsd_eq]
  set st := probe_loop env.probe (compute_levels quality_config) {} with hst
  constructor
  · by_cases hneed : (!strTruthy st.url || st.is_free_trial) = true
    · rw [rescue_phase_invoked _ _ hneed]
      by_cases hok : unblock_url_ok env.unblock = true
      · obtain ⟨m, hm, hmu⟩ := unblock_url_ok_elim _ hok
        rw [hm] at hok
        rw [hm, apply_unblock_success m st.song_data st.url st.is_free_trial hmu]
        dsimp only
        rw [build_stream_ok _ _ _ hmu]
        simp [hok]
      · have hok' : unblock_url_ok env.unblock = false := by simpa using hok
        rw [apply_unblock_noop _ _ _ _ hok']
        dsimp only
        cases hu : strTruthy st.url
        · rw [build_stream_empty _ _ _ hu]
          simp [hu, hok']
        · rw [build_stream_ok _ _ _ hu]
          simp [hu]
    · have hneed' : (!strTruthy st.url || st.is_free_trial) = false := by simpa using hneed
      have hurl : strTruthy st.url = true := by
        cases hu : strTruthy st.url
        · rw [hu] at hneed'
          simp at hneed'
        · rfl
      rw [rescue_phase_not_invoked _ _ hneed']
      dsimp only
      rw [build_stream_ok _ _ _ hurl]
      simp [hurl]
  · intro sd hsd
    exact build_stream_path_ne _ _ _ _ hsd

/-- Claim C9: the catalog adapter degrades a missing optional name to the
placeholder name "未知歌曲" while still producing a valid entity, and fails
construction (raises) on a missing identifier. -/
theorem C9_parse_track_placeholder_name_and_id_failure
    (instance_id : String) (p : TrackPayload) :
    (p.id = none → parse_track instance_id p = .error "KeyError: id") ∧
    (∀ i, p.id = some i → p.name = none → (∀ a ∈ p.ar, a.id.isSome) →
      ∃ t, parse_track instance_id p = .ok t ∧
        t.name = "未知歌曲" ∧ t.item_id = toString i) := by
  constructor
  · intro h
    simp [parse_track, h]
  · intro i hid hname har
    obtain ⟨ms, hms⟩ := parse_artists_ok instance_id p.ar har
    refine ⟨{ item_id := toString i
              provider := instance_id
              name := "未知歌曲"
              duration := p.dt.getD 0 / 1000
              artists := ms
              album := (parse_album_part instance_id p.al).1
              images := (parse_album_part instance_id p.al).2 }, ?_, rfl, rfl⟩
    simp [parse_track, hid, hms, hname, Bind.bind, Except.bind]

/-- Claim C10: when no probe retains any candidate and the rescue path returns
a bare URL (no container tag, no bit rate), the final result reports
fabricated defaults taken from no upstream response: merged fields 128000 bps
/ "mp3" / size 0 / empty checksum, and a stream with codec MP3, 128 kbps, bit
depth 16, sample rate 44100. -/
theorem C10_rescue_only_fabricated_defaults
    (env : ResolveEnv) (item_id quality_config u : String)
    (hprobe : ∀ l, (env.probe l).data = [])
    (hub : env.unblock = ⟨200, some { url := some u }⟩)
    (hu : strTruthy (some u) = true) :
    (get_stream_details env item_id quality_config).final_song_data =
      some { url := some u, br := some 128000, ftype := some "mp3",
             size := some 0, md5 := some "" } ∧
    (get_stream_details env item_id quality_config).rescue_calls = 1 ∧
    ∃ sd, (get_stream_details env item_id quality_config).stream = some sd ∧
      sd.audio_format.content_type = ContentType.MP3 ∧
      sd.audio_format.bit_rate = some 128 ∧
      sd.audio_format.bit_depth = 16 ∧
      sd.audio_format.sample_rate = 44100 ∧
      sd.path = u := by
  have hmp3 : py_lower "mp3" = "mp3" := by decide
  rw [gsd_eq, probe_loop_all_empty env.probe _ {} (fun l _ => hprobe l)]
  rw [rescue_phase_invoked _ _ (by simp [strTruthy]), hub]
  dsimp only
  rw [apply_unblock_success { url := some u } none none false (by exact hu)]
  dsimp only
  refine ⟨by simp, by simp, ?_⟩
  rw [build_stream_ok _ _ _ (by exact hu)]
  refine ⟨_, rfl, ?_, ?_, ?_, ?_, ?_⟩ <;>
    (simp only [classify_format, hmp3, Option.getD_some, Option.getD_none]; try norm_num)

/-! ## Evaluation witnesses for the claims -/

/-- C1 evaluated in a world where the first probed level is a full hit. -/
theorem C1_witness :
    (get_stream_details env_full_first "42" "exhigh").queried =
        (compute_levels "exhigh").take (0 + 1) ∧
    (get_stream_details env_full_first "42" "exhigh").queried.Nodup ∧
    (get_stream_details env_full_first "42" "exhigh").accepted = true ∧
    (get_stream_details env_full_first "42" "exhigh").rescue_calls = 0 :=
  C1_first_full_hit_accepted_immediately env_full_first "42" "exhigh" 0
    (by decide) (by decide) (fun j hj => absurd hj (Nat.not_lt_zero j))

/-- C2 evaluated at the recognized quality "hires". -/
theorem C2_witness :
    ∃ i, ∃ hi : i < all_levels.length,
      all_levels.get ⟨i, hi⟩ = "hires" ∧
      compute_levels "hires" = all_levels.drop i ∧
      (compute_levels "hires").head? = some "hires" ∧
      (compute_levels "hires").Nodup ∧
      ∀ (env : ResolveEnv) (item_id : String), ∃ n,
        (get_stream_details env item_id "hires").queried =
          (compute_levels "hires").take n :=
  C2_recognized_quality_gives_ladder_suffix "hires" (by decide)

/-- C3 evaluated at the unrecognized quality "bogus". -/
theorem C3_witness :
    (get_stream_details env_dead "42" "bogus").levels = ["exhigh", "higher", "standard"] ∧
    ((get_stream_details env_dead "42" "bogus").stream = none ∨
      ∃ sd, (get_stream_details env_dead "42" "bogus").stream = some sd ∧ sd.path ≠ "") :=
  C3_unrecognized_quality_uses_default "bogus" (by decide) env_dead "42"

/-- C4 evaluated in a world whose first probed level returns a preview. -/
theorem C4_witness :
    ∃ d tail,
      (env_preview_only.probe ((compute_levels "exhigh").get ⟨0, by decide⟩)).data =
          d :: tail ∧
      (get_stream_details env_preview_only "42" "exhigh").queried =
          compute_levels "exhigh" ∧
      (get_stream_details env_preview_only "42" "exhigh").probe_song_data = some d ∧
      (get_stream_details env_preview_only "42" "exhigh").probe_url = d.url ∧
      (get_stream_details env_preview_only "42" "exhigh").probe_is_free_trial = true ∧
      (get_stream_details env_preview_only "42" "exhigh").accepted = false :=
  C4_first_preview_retained_probing_continues env_preview_only "42" "exhigh" 0
    (by decide) (by decide) (by decide) (fun j hj => absurd hj (Nat.not_lt_zero j))

/-- C5 evaluated in the preview-only world. -/
theorem C5_witness :
    ((get_stream_details env_preview_only "42" "exhigh").rescue_calls = 1 ↔
      (get_stream_details env_preview_only "42" "exhigh").accepted = false) ∧
    ((get_stream_details env_preview_only "42" "exhigh").accepted = false ↔
      (strTruthy (get_stream_details env_preview_only "42" "exhigh").probe_url = false ∨
        (get_stream_details env_preview_only "42" "exhigh").probe_is_free_trial = true)) ∧
    ((get_stream_details env_preview_only "42" "exhigh").rescue_calls = 1 →
      (get_stream_details env_preview_only "42" "exhigh").rescue_source_used =
        some "pyncmd,bodian,kuwo") ∧
    ((get_stream_details env_preview_only "42" "exhigh").accepted = true →
      (get_stream_details env_preview_only "42" "exhigh").rescue_calls = 0 ∧
      (get_stream_details env_preview_only "42" "exhigh").rescue_source_used = none) :=
  C5_rescue_iff_no_full_accept env_preview_only "42" "exhigh"

/-- C6 evaluated in the preview-only world with a successful rescue. -/
theorem C6_witness :
    (get_stream_details env_preview_only "42" "exhigh").final_is_free_trial = false ∧
    (get_stream_details env_preview_only "42" "exhigh").final_url =
        some "http://unblock" ∧
    (get_stream_details env_preview_only "42" "exhigh").final_song_data = some
      { url := some "http://unblock", freeTrialInfo := true, br := some 999000,
        ftype := some "mp3", sr := none, size := some 0, md5 := some "",
        time := some 30000 } ∧
    ∃ sd, (get_stream_details env_preview_only "42" "exhigh").stream = some sd ∧
      sd.path = (some "http://unblock").getD "" :=
  C6_rescue_success_overrides_and_backfills env_preview_only "42" "exhigh"
    { url := some "http://preview", freeTrialInfo := true, br := some 320000,
      ftype := some "mp3", sr := none, size := none, md5 := none, time := some 30000 }
    { url := some "http://unblock", br := some 999000 }
    rfl (by decide) (by decide) (by decide)

/-- C7 evaluated in the world where probes and rescue all fail. -/
theorem C7_witness :
    ((get_stream_details env_dead "42" "exhigh").stream = none ↔
      (strTruthy (get_stream_details env_dead "42" "exhigh").probe_url = false ∧
        unblock_url_ok env_dead.unblock = false)) ∧
    (∀ sd, (get_stream_details env_dead "42" "exhigh").stream = some sd →
      sd.path ≠ "") :=
  C7_failure_iff_no_url_anywhere env_dead "42" "exhigh"

/-- C9 evaluated on a payload without a name and one without an id. -/
theorem C9_witness :
    parse_track "prov" payload_no_id = .error "KeyError: id" ∧
    ∃ t, parse_track "prov" payload_no_name = .ok t ∧
      t.name = "未知歌曲" ∧ t.item_id = toString 42 :=
  ⟨(C9_parse_track_placeholder_name_and_id_failure "prov" payload_no_id).1 rfl,
   (C9_parse_track_placeholder_name_and_id_failure "prov" payload_no_name).2 42 rfl rfl
     (by intro a ha; simp [payload_no_name] at ha)⟩

/-- C10 evaluated in the world where only the rescue path yields a URL. -/
theorem C10_witness :
    (get_stream_details env_empty "42" "exhigh").final_song_data =
      some { url := some "http://unblock", br := some 128000, ftype := some "mp3",
             size := some 0, md5 := some "" } ∧
    (get_stream_details env_empty "42" "exhigh").rescue_calls = 1 ∧
    ∃ sd, (get_stream_details env_empty "42" "exhigh").stream = some sd ∧
      sd.audio_format.content_type = ContentType.MP3 ∧
      sd.audio_format.bit_rate = some 128 ∧
      sd.audio_format.bit_depth = 16 ∧
      sd.audio_format.sample_rate = 44100 ∧
      sd.path = "http://unblock" :=
  C10_rescue_only_fabricated_defaults env_empty "42" "exhigh" "http://unblock"
    (fun _ => rfl) rfl (by decide)

end NCloudMusic
